import Mathlib

/-!
Verification of `docs/source-app/workflows/add_web_ui/panel/examples/app_state_watcher.py`:
the `AppStateWatcher` singleton that exposes a remote app's state to a frontend as a
reactive attribute.  The Python class is embedded shallowly: the class-level instance
cache, the per-instance attributes, and the side-effect counters (callback registrations
with the external notifier, downstream change notifications emitted by the reactive
framework) become fields of an explicit process-state record, and each method becomes a
state-passing function returning the new state together with an optional raised error.
-/

/-- Modelled from the spec: an opaque external Python object of which this component
observes only its truthiness (e.g. the dict stored in the snapshot's internal payload,
whose truthiness is non-emptiness).  `AppState`'s payload type is defined outside this
repository fragment. -/
structure PyObj where
  truthy : Bool
deriving DecidableEq, Repr

/-- Modelled from the spec: the external snapshot object (`AppState` from
`lightning_app.utilities.state`, not part of this fragment).  The watcher code observes
its own truthiness (`if not self.state`) and its internal payload `_state`
(`if not self.state._state`); `none` for the payload models an unset/`None` `_state`. -/
structure AppState where
  truthy : Bool
  _state : Option PyObj
deriving DecidableEq, Repr

/-- Python truthiness of an optional payload object: `None` is falsy, an object is as
truthy as its own `__bool__`. -/
def pyTruthy : Option PyObj → Bool
  | none => false
  | some o => o.truthy

/-- Python truthiness of the watcher's `state` attribute: `None` (param default) is
falsy, a held `AppState` is as truthy as the object itself. -/
def pyTruthyState : Option AppState → Bool
  | none => false
  | some a => a.truthy

/-- Python truthiness of `self.state._state`, the held snapshot's internal payload (only
evaluated by the source once `self.state` itself passed its truthiness check, so the
`none` case is unreachable there). -/
def pyTruthyPayload : Option AppState → Bool
  | none => false
  | some a => pyTruthy a._state

/-- Errors raised by the watcher code: `keyError k` models `os.environ[k]` failing on a
missing variable, `exn msg` models `raise Exception(msg)`. -/
inductive PyErr where
  | keyError (key : String)
  | exn (msg : String)
deriving DecidableEq, Repr

/-- The per-instance attributes of an `AppStateWatcher` object:
`state` is the param `ClassSelector` attribute (default `None`),
`allow_None` mirrors `self.param.state.allow_None`, and
`initilized` models `hasattr(self, "_initilized")` (spelling as in the source). -/
structure Watcher where
  state : Option AppState
  allow_None : Bool
  initilized : Bool
deriving DecidableEq, Repr

/-- A freshly allocated instance, before `__init__` runs: the param attribute holds its
class-level default `None`, `allow_None` is param's default `True`, and the
`_initilized` marker attribute does not exist yet. -/
def Watcher.fresh : Watcher :=
  { state := none, allow_None := true, initilized := false }

/-- The process-wide state the Python code manipulates:
`_instance` models `hasattr(cls, "_instance")` / `cls._instance` as the object id of the
cached singleton (`none` when unset); `nextId` allocates object ids; `inst` holds the
attributes of the cached instance; `registrations` counts calls to the external
`watch_app_state` registration function; `notifications` counts downstream change
notifications emitted by the reactive framework.  Modelled from the spec for the two
external collaborators: `watch_app_state` only records the callback (delivery is the
collaborator's concern), and every wholesale assignment of the `state` parameter is
propagated by the reactive framework as exactly one downstream change notification. -/
structure Sys where
  _instance : Option Nat
  nextId : Nat
  inst : Watcher
  registrations : Nat
  notifications : Nat
deriving DecidableEq, Repr

/-- The process state at interpreter start: no cached instance, no registrations, no
notifications. -/
def Sys.initial : Sys :=
  { _instance := none, nextId := 0, inst := Watcher.fresh,
    registrations := 0, notifications := 0 }

namespace AppStateWatcher

/-- `__new__`: `if not hasattr(cls, "_instance"): cls._instance = super().__new__(cls)`;
`return cls._instance`.  Allocation yields a fresh object (fresh attributes) and caches
its id; the cached id is returned either way. -/
def new_ (s : Sys) : Sys × Nat :=
  match s._instance with
  | some i => (s, i)
  | none =>
    ({ s with _instance := some s.nextId, nextId := s.nextId + 1, inst := Watcher.fresh },
     s.nextId)

/-- `_get_flow_state`: `flow = os.environ["LIGHTNING_FLOW_NAME"]` (raises `KeyError` when
the variable is absent), then `return get_flow_state(flow)`.  The environment is the
optional value of `LIGHTNING_FLOW_NAME`; `get_flow_state` is the external snapshot-fetch
collaborator, passed as an oracle. -/
def _get_flow_state (env : Option String) (gfs : String → AppState) :
    Except PyErr AppState :=
  match env with
  | none => .error (.keyError "LIGHTNING_FLOW_NAME")
  | some flow => .ok (gfs flow)

/-- `_update_flow_state`: `with param.edit_constant(self): self.state = self._get_flow_state()`.
A failed fetch propagates; a successful fetch replaces the held snapshot wholesale and
the reactive framework emits one downstream change notification for the assignment. -/
def _update_flow_state (env : Option String) (gfs : String → AppState) (s : Sys) :
    Sys × Option PyErr :=
  match _get_flow_state env gfs with
  | .error e => (s, some e)
  | .ok st =>
    ({ s with inst := { s.inst with state := some st },
              notifications := s.notifications + 1 }, none)

/-- `_start_watching`: `watch_app_state(self._update_flow_state)` registers the refresh
callback with the external notifier, then `self._update_flow_state()` performs one
synchronous refresh. -/
def _start_watching (env : Option String) (gfs : String → AppState) (s : Sys) :
    Sys × Option PyErr :=
  _update_flow_state env gfs { s with registrations := s.registrations + 1 }

/-- The two validation checks at the end of `__init__`:
`if not self.state: raise Exception(".state has not been set.")` and
`if not self.state._state: raise Exception(".state._state has not been set.")`.
Both use Python truthiness; the payload check is only reached when the first passed,
so `self.state` is a (truthy) object there. -/
def checksPost (s : Sys) : Option PyErr :=
  if pyTruthyState s.inst.state = false then some (.exn ".state has not been set.")
  else if pyTruthyPayload s.inst.state = false then
    some (.exn ".state._state has not been set.")
  else none

/-- `__init__`: when the `_initilized` marker is absent, run `super().__init__`,
`_start_watching()` (whose failure propagates before the marker is set),
`self.param.state.allow_None = False`, and set the marker; in every call, finish with
the two truthiness checks. -/
def init (env : Option String) (gfs : String → AppState) (s : Sys) :
    Sys × Option PyErr :=
  if s.inst.initilized then (s, checksPost s)
  else
    match _start_watching env gfs s with
    | (s1, some e) => (s1, some e)
    | (s1, none) =>
      let s2 := { s1 with inst := { s1.inst with allow_None := false, initilized := true } }
      (s2, checksPost s2)

/-- Result of one constructor call `AppStateWatcher()`: the process state after the
call, the error it raised (if any), and the object id `__new__` produced (the object the
call returns when no error is raised). -/
structure CallResult where
  sys : Sys
  err : Option PyErr
  ret : Nat
deriving DecidableEq, Repr

/-- One full constructor call `AppStateWatcher()`: `__new__` then `__init__` on the
returned (cached) instance. -/
def call (env : Option String) (gfs : String → AppState) (s : Sys) : CallResult :=
  let p := new_ s
  let q := init env gfs p.1
  ⟨q.1, q.2, p.2⟩

end AppStateWatcher

/-- A concrete snapshot-fetch oracle for witnesses: every flow name yields a truthy
snapshot with a truthy payload. -/
def gfsDemo : String → AppState := fun _ => ⟨true, some ⟨true⟩⟩

/-!
Interleaving model of `__new__` for the concurrency claim.  The method body is three
steps a thread scheduler can interleave: read `hasattr(cls, "_instance")`, conditionally
`cls._instance = super().__new__(cls)` (allocation and store taken as one step), and
`return cls._instance` (a fresh read of the class attribute).  Nothing in the source
holds a lock between the check and the store.
-/

/-- Shared class-level state for the interleaving model: the `_instance` attribute,
the allocator, and how many objects `super().__new__` has constructed. -/
structure RaceGlobal where
  instAttr : Option Nat
  nextId : Nat
  created : Nat
deriving DecidableEq, Repr

/-- One thread running `__new__`: its program counter (0 = about to check, 1 = after the
check, 2 = about to return, 3 = done), what the check saw, and the reference it
returned. -/
structure RaceThread where
  pc : Nat
  sawMissing : Bool
  ret : Option Nat
deriving DecidableEq, Repr

/-- A thread that has not started running `__new__`. -/
def RaceThread.start : RaceThread :=
  { pc := 0, sawMissing := false, ret := none }

/-- Execute one atomic step of `__new__` for one thread. -/
def raceStepThread (g : RaceGlobal) (t : RaceThread) : RaceGlobal × RaceThread :=
  match t.pc with
  | 0 => (g, { t with sawMissing := g.instAttr.isNone, pc := 1 })
  | 1 =>
    if t.sawMissing then
      ({ g with instAttr := some g.nextId, nextId := g.nextId + 1, created := g.created + 1 },
       { t with pc := 2 })
    else (g, { t with pc := 2 })
  | 2 => (g, { t with ret := g.instAttr, pc := 3 })
  | _ => (g, t)

/-- Two threads concurrently performing first access. -/
structure RaceSys where
  g : RaceGlobal
  t1 : RaceThread
  t2 : RaceThread
deriving DecidableEq, Repr

/-- Interpreter start, before any first access: no cached instance, both threads about
to enter `__new__`. -/
def RaceSys.start : RaceSys :=
  { g := ⟨none, 0, 0⟩, t1 := RaceThread.start, t2 := RaceThread.start }

/-- Run one scheduled step: `true` steps thread 1, `false` steps thread 2. -/
def raceStep (s : RaceSys) (b : Bool) : RaceSys :=
  if b then
    let p := raceStepThread s.g s.t1
    { s with g := p.1, t1 := p.2 }
  else
    let p := raceStepThread s.g s.t2
    { s with g := p.1, t2 := p.2 }

/-- Run a whole schedule. -/
def raceRun (s : RaceSys) (sched : List Bool) : RaceSys :=
  sched.foldl raceStep s

/-- A racy schedule: both threads pass the `hasattr` check before either stores, so both
allocate. -/
def racySched : List Bool := [true, false, true, true, false, false]

/-- A sequential schedule: thread 1 runs `__new__` to completion, then thread 2. -/
def seqSched12 : List Bool := [true, true, true, false, false, false]

/-- The other sequential schedule: thread 2 first, then thread 1. -/
def seqSched21 : List Bool := [false, false, false, true, true, true]

/-- A process state whose cached, initialized instance holds a truthy snapshot whose
internal payload is set (`_state` is an object) but falsy — reachable when the external
fetch returns a snapshot whose payload dict is empty, or under the mocking the source
comment mentions. -/
def sFalsyPayload : Sys :=
  { _instance := some 0, nextId := 1,
    inst := { state := some ⟨true, some ⟨false⟩⟩, allow_None := false, initilized := true },
    registrations := 1, notifications := 1 }

/-- A process state whose cached, initialized instance holds a truthy snapshot with a
truthy payload: the healthy steady state. -/
def sHealthy : Sys :=
  { _instance := some 0, nextId := 1,
    inst := { state := some ⟨true, some ⟨true⟩⟩, allow_None := false, initilized := true },
    registrations := 1, notifications := 1 }

namespace AppStateWatcher

/-- A refresh never touches the class-level instance cache. -/
theorem update_fst_instance (env : Option String) (gfs : String → AppState) (s : Sys) :
    ((_update_flow_state env gfs s).1)._instance = s._instance := by
  cases env <;> rfl

/-- `__init__` never touches the class-level instance cache. -/
theorem init_fst_instance (env : Option String) (gfs : String → AppState) (s : Sys) :
    ((init env gfs s).1)._instance = s._instance := by
  by_cases h : s.inst.initilized <;> cases env <;>
    simp [init, h, _start_watching, _update_flow_state, _get_flow_state]

/-- After any constructor call, the cached instance id is the one the call returned. -/
theorem call_sys_instance (env : Option String) (gfs : String → AppState) (s : Sys) :
    (call env gfs s).sys._instance = some (call env gfs s).ret := by
  cases hs : s._instance with
  | none => simp [call, new_, hs, init_fst_instance]
  | some i => simp [call, new_, hs, init_fst_instance]

/-- A constructor call on a process that already caches instance `i` returns `i`. -/
theorem call_ret_cached (env : Option String) (gfs : String → AppState) (s : Sys)
    (i : Nat) (hi : s._instance = some i) :
    (call env gfs s).ret = i := by
  simp [call, new_, hi]

/-- On an already-initialized cached instance, a constructor call only re-runs the two
validation checks: the process state is unchanged and the error is exactly what the
checks yield. -/
theorem call_initialized (env : Option String) (gfs : String → AppState) (s : Sys) (i : Nat)
    (hi : s._instance = some i) (h : s.inst.initilized = true) :
    (call env gfs s) = ⟨s, checksPost s, i⟩ := by
  simp [call, new_, hi, init, h]

/-- Passing both validation checks requires the held snapshot to be an object (not
`None`). -/
theorem checksPost_none_isSome (s : Sys) (h : checksPost s = none) :
    (s.inst.state).isSome = true := by
  cases hc : s.inst.state <;> simp_all [checksPost, pyTruthyState]

/-- When `__init__` returns without raising, the process state it returns passes both
validation checks. -/
theorem init_err_none (env : Option String) (gfs : String → AppState) (s : Sys)
    (h : (init env gfs s).2 = none) :
    checksPost (init env gfs s).1 = none := by
  by_cases hi : s.inst.initilized <;> cases env <;>
    simp_all [init, _start_watching, _update_flow_state, _get_flow_state]

/-- `__init__` never clears a held snapshot: a refresh either replaces it with a fetched
one or fails leaving it untouched. -/
theorem init_state_mono (env : Option String) (gfs : String → AppState) (s : Sys)
    (h : (s.inst.state).isSome = true) :
    ((init env gfs s).1.inst.state).isSome = true := by
  by_cases hi : s.inst.initilized <;> cases env <;>
    simp_all [init, _start_watching, _update_flow_state, _get_flow_state]

end AppStateWatcher

/-- C1: whenever the refresh callback `_update_flow_state` returns (the environment
names a flow, so the snapshot fetch succeeds), it returns without error, the held
`state` attribute is exactly the snapshot `get_flow_state` returned during that
invocation, and the replacement is wholesale — the result does not depend on the
previously held snapshot (no diffing or merging). -/
theorem update_flow_state_replaces_wholesale (flow : String) (gfs : String → AppState)
    (s : Sys) :
    AppStateWatcher._get_flow_state (some flow) gfs = .ok (gfs flow) ∧
    (AppStateWatcher._update_flow_state (some flow) gfs s).2 = none ∧
    (AppStateWatcher._update_flow_state (some flow) gfs s).1.inst.state = some (gfs flow) :=
  ⟨rfl, rfl, rfl⟩

/-- C2: two successive constructor calls return the identical cached object: the second
call's returned id equals the first's, and when no instance was cached yet the first
call constructs the instance and caches exactly that object's id. -/
theorem singleton_identity (env env' : Option String) (gfs gfs' : String → AppState)
    (s : Sys) :
    (AppStateWatcher.call env' gfs' (AppStateWatcher.call env gfs s).sys).ret =
      (AppStateWatcher.call env gfs s).ret ∧
    (s._instance = none →
      (AppStateWatcher.call env gfs s).ret = s.nextId ∧
      (AppStateWatcher.call env gfs s).sys._instance = some s.nextId) := by
  constructor
  · exact AppStateWatcher.call_ret_cached env' gfs' _ _
      (AppStateWatcher.call_sys_instance env gfs s)
  · intro hs
    constructor
    · simp [AppStateWatcher.call, AppStateWatcher.new_, hs]
    · have h := AppStateWatcher.call_sys_instance env gfs s
      simpa [AppStateWatcher.call, AppStateWatcher.new_, hs] using h

/-- Witness for C2 at a concrete input: from the initial process state, the first call
returns object id 0, caches it, and the second call returns the same id 0. -/
theorem singleton_identity_witness :
    (AppStateWatcher.call none gfsDemo
        (AppStateWatcher.call (some "flow") gfsDemo Sys.initial).sys).ret =
      (AppStateWatcher.call (some "flow") gfsDemo Sys.initial).ret ∧
    (AppStateWatcher.call (some "flow") gfsDemo Sys.initial).ret = 0 ∧
    (AppStateWatcher.call (some "flow") gfsDemo Sys.initial).sys._instance = some 0 := by
  have h := singleton_identity (some "flow") none gfsDemo gfsDemo Sys.initial
  exact ⟨h.1, (h.2 rfl).1, (h.2 rfl).2⟩

/-- C4: when the environment variable `LIGHTNING_FLOW_NAME` is absent, the snapshot
fetch raises `KeyError("LIGHTNING_FLOW_NAME")` rather than fetching under a default
name, and every refresh invocation propagates exactly that error synchronously while
leaving the process state (held snapshot included) unchanged. -/
theorem refresh_missing_env_raises (gfs : String → AppState) (s : Sys) :
    AppStateWatcher._get_flow_state none gfs =
      .error (.keyError "LIGHTNING_FLOW_NAME") ∧
    AppStateWatcher._update_flow_state none gfs s =
      (s, some (.keyError "LIGHTNING_FLOW_NAME")) :=
  ⟨rfl, rfl⟩

/-- C7: every refresh invocation that completes (the environment names a flow) emits
exactly one downstream change notification and replaces the snapshot — for every prior
process state, including one whose held snapshot already equals the fetched one, the
notification count grows by exactly one (no equality-based suppression). -/
theorem refresh_notifies_exactly_once (flow : String) (gfs : String → AppState)
    (s : Sys) :
    (AppStateWatcher._update_flow_state (some flow) gfs s).1.notifications =
      s.notifications + 1 ∧
    (AppStateWatcher._update_flow_state (some flow) gfs s).1.inst.state =
      some (gfs flow) :=
  ⟨rfl, rfl⟩

/-- C3: the held snapshot is never null once initialization succeeds, and the property
is preserved afterwards — a successful constructor call leaves a non-null snapshot, a
refresh (successful or failed) never turns a non-null snapshot null, and a constructor
call on a cached instance with a non-null snapshot leaves it non-null. -/
theorem state_never_unset_invariant (env : Option String) (gfs : String → AppState)
    (s : Sys) :
    ((AppStateWatcher.call env gfs s).err = none →
      ((AppStateWatcher.call env gfs s).sys.inst.state).isSome = true) ∧
    ((s.inst.state).isSome = true →
      ((AppStateWatcher._update_flow_state env gfs s).1.inst.state).isSome = true) ∧
    (s._instance.isSome = true → (s.inst.state).isSome = true →
      ((AppStateWatcher.call env gfs s).sys.inst.state).isSome = true) := by
  refine ⟨?_, ?_, ?_⟩
  · intro herr
    have h2 : (AppStateWatcher.init env gfs (AppStateWatcher.new_ s).1).2 = none := by
      simpa [AppStateWatcher.call] using herr
    have h3 := AppStateWatcher.init_err_none env gfs _ h2
    have h4 := AppStateWatcher.checksPost_none_isSome _ h3
    simpa [AppStateWatcher.call] using h4
  · intro h
    cases env with
    | none =>
      simpa [AppStateWatcher._update_flow_state, AppStateWatcher._get_flow_state] using h
    | some flow =>
      simp [AppStateWatcher._update_flow_state, AppStateWatcher._get_flow_state]
  · intro hinst hstate
    obtain ⟨i, hi⟩ := Option.isSome_iff_exists.mp hinst
    have hm := AppStateWatcher.init_state_mono env gfs s hstate
    simpa [AppStateWatcher.call, AppStateWatcher.new_, hi] using hm

/-- Witness for C3 at a concrete input: on the healthy steady state, a constructor call
(which succeeds) and a refresh both leave the snapshot non-null. -/
theorem state_never_unset_invariant_witness :
    ((AppStateWatcher.call (some "flow") gfsDemo sHealthy).sys.inst.state).isSome = true ∧
    ((AppStateWatcher._update_flow_state (some "flow") gfsDemo sHealthy).1.inst.state).isSome
      = true := by
  have h := state_never_unset_invariant (some "flow") gfsDemo sHealthy
  exact ⟨h.1 (by decide), h.2.1 (by decide)⟩

/-- C5 counterexample: on the initialized singleton, a held snapshot that is set (not
`None`) with an internal payload that is set (not `None`) but falsy still makes the
constructor raise — refuting "raises if state or its payload is still unset; otherwise
it returns normally". -/
theorem set_but_falsy_payload_still_raises :
    sFalsyPayload.inst.state ≠ none ∧
    Option.map (fun a => a._state) sFalsyPayload.inst.state = some (some ⟨false⟩) ∧
    (AppStateWatcher.call (some "flow") gfsDemo sFalsyPayload).err =
      some (.exn ".state._state has not been set.") := by
  decide

/-- C5 (amended): on the already-initialized cached singleton, the constructor returns
normally iff the held snapshot is truthy and its internal payload is truthy under Python
truthiness (unset is one of the falsy cases, but a set-yet-falsy value raises too);
otherwise it raises an initialization error synchronously. -/
theorem init_returns_iff_truthy (env : Option String) (gfs : String → AppState)
    (s : Sys) (i : Nat) (hi : s._instance = some i) (h : s.inst.initilized = true) :
    (AppStateWatcher.call env gfs s).err = none ↔
      pyTruthyState s.inst.state = true ∧ pyTruthyPayload s.inst.state = true := by
  rw [AppStateWatcher.call_initialized env gfs s i hi h]
  cases hps : pyTruthyState s.inst.state <;>
    cases hpp : pyTruthyPayload s.inst.state <;>
      simp [AppStateWatcher.checksPost, hps, hpp]

/-- Witness for C5's amended theorem at a concrete input: on the healthy steady state
the constructor returns normally, matching both truthiness conditions. -/
theorem init_returns_iff_truthy_witness :
    (AppStateWatcher.call (some "flow") gfsDemo sHealthy).err = none ↔
      pyTruthyState sHealthy.inst.state = true ∧
        pyTruthyPayload sHealthy.inst.state = true :=
  init_returns_iff_truthy (some "flow") gfsDemo sHealthy 0 (by decide) (by decide)

/-- C6: a successful first constructor call from the initial process state registers the
refresh callback with the external notifier exactly once and performs exactly one
synchronous refresh (one downstream notification), marking the instance initialized; any
later constructor call on the initialized singleton registers nothing and refreshes
nothing. -/
theorem first_call_registers_and_refreshes_once (env env' : Option String)
    (gfs gfs' : String → AppState)
    (h : (AppStateWatcher.call env gfs Sys.initial).err = none) :
    (AppStateWatcher.call env gfs Sys.initial).sys.registrations = 1 ∧
    (AppStateWatcher.call env gfs Sys.initial).sys.notifications = 1 ∧
    (AppStateWatcher.call env gfs Sys.initial).sys.inst.initilized = true ∧
    (AppStateWatcher.call env' gfs'
        (AppStateWatcher.call env gfs Sys.initial).sys).sys.registrations = 1 ∧
    (AppStateWatcher.call env' gfs'
        (AppStateWatcher.call env gfs Sys.initial).sys).sys.notifications = 1 := by
  cases env with
  | none =>
    simp [AppStateWatcher.call, AppStateWatcher.new_, AppStateWatcher.init,
      AppStateWatcher._start_watching, AppStateWatcher._update_flow_state,
      AppStateWatcher._get_flow_state, Sys.initial, Watcher.fresh] at h
  | some flow =>
    refine ⟨?_, ?_, ?_, ?_, ?_⟩ <;>
      simp [AppStateWatcher.call, AppStateWatcher.new_, AppStateWatcher.init,
        AppStateWatcher._start_watching, AppStateWatcher._update_flow_state,
        AppStateWatcher._get_flow_state, Sys.initial, Watcher.fresh]

/-- Witness for C6 at a concrete input: with the flow named and the demo fetch oracle,
the first call registers once and notifies once, and a later call (even with the
environment variable since removed) changes neither count. -/
theorem first_call_registers_and_refreshes_once_witness :
    (AppStateWatcher.call (some "flow") gfsDemo Sys.initial).sys.registrations = 1 ∧
    (AppStateWatcher.call (some "flow") gfsDemo Sys.initial).sys.notifications = 1 ∧
    (AppStateWatcher.call (some "flow") gfsDemo Sys.initial).sys.inst.initilized = true ∧
    (AppStateWatcher.call none gfsDemo
        (AppStateWatcher.call (some "flow") gfsDemo Sys.initial).sys).sys.registrations = 1 ∧
    (AppStateWatcher.call none gfsDemo
        (AppStateWatcher.call (some "flow") gfsDemo Sys.initial).sys).sys.notifications = 1 :=
  first_call_registers_and_refreshes_once (some "flow") none gfsDemo gfsDemo (by decide)

/-- C9: every constructor call on the already-initialized cached singleton re-runs the
post-initialization validation without re-initializing, and the validation uses Python
truthiness rather than an unset check: a falsy held snapshot (unset or set-but-falsy)
raises exactly the unset-state error, and a truthy snapshot with a falsy internal
payload (unset or set-but-falsy) raises exactly the unset-payload error. -/
theorem revalidation_uses_truthiness (env : Option String) (gfs : String → AppState)
    (s : Sys) (i : Nat) (hi : s._instance = some i) (h : s.inst.initilized = true) :
    (pyTruthyState s.inst.state = false →
      (AppStateWatcher.call env gfs s).err = some (.exn ".state has not been set.")) ∧
    (pyTruthyState s.inst.state = true → pyTruthyPayload s.inst.state = false →
      (AppStateWatcher.call env gfs s).err =
        some (.exn ".state._state has not been set.")) ∧
    (AppStateWatcher.call env gfs s).sys = s := by
  rw [AppStateWatcher.call_initialized env gfs s i hi h]
  refine ⟨?_, ?_, rfl⟩
  · intro hf
    simp [AppStateWatcher.checksPost, hf]
  · intro ht hp
    simp [AppStateWatcher.checksPost, ht, hp]

/-- Witness for C9 at a concrete input: the process state with a truthy snapshot but a
set-yet-falsy payload makes a repeated constructor call raise the payload error while
leaving the process state unchanged. -/
theorem revalidation_uses_truthiness_witness :
    pyTruthyState sFalsyPayload.inst.state = true ∧
    pyTruthyPayload sFalsyPayload.inst.state = false ∧
    (AppStateWatcher.call none gfsDemo sFalsyPayload).err =
      some (.exn ".state._state has not been set.") ∧
    (AppStateWatcher.call none gfsDemo sFalsyPayload).sys = sFalsyPayload := by
  have h := revalidation_uses_truthiness none gfsDemo sFalsyPayload 0 (by decide) (by decide)
  exact ⟨by decide, by decide, h.2.1 (by decide) (by decide), h.2.2⟩

/-- C10: when the initial refresh raises during first construction (environment variable
absent), the error propagates with the `_initilized` flag still unset though the
instance is already cached and the callback registered once; the next constructor call
on that same cached instance re-runs the full initialization — registering a second time
and performing the refresh — instead of treating the instance as initialized. -/
theorem failed_first_init_retries (flow : String) (gfs : String → AppState) (s : Sys)
    (h : s._instance = none) :
    (AppStateWatcher.call none gfs s).err = some (.keyError "LIGHTNING_FLOW_NAME") ∧
    (AppStateWatcher.call none gfs s).sys.inst.initilized = false ∧
    (AppStateWatcher.call none gfs s).sys._instance = some s.nextId ∧
    (AppStateWatcher.call none gfs s).sys.registrations = s.registrations + 1 ∧
    (AppStateWatcher.call none gfs s).sys.notifications = s.notifications ∧
    (AppStateWatcher.call (some flow) gfs
        (AppStateWatcher.call none gfs s).sys).sys.registrations = s.registrations + 2 ∧
    (AppStateWatcher.call (some flow) gfs
        (AppStateWatcher.call none gfs s).sys).sys.notifications = s.notifications + 1 ∧
    (AppStateWatcher.call (some flow) gfs
        (AppStateWatcher.call none gfs s).sys).sys.inst.initilized = true ∧
    (AppStateWatcher.call (some flow) gfs
        (AppStateWatcher.call none gfs s).sys).sys.inst.state = some (gfs flow) := by
  refine ⟨?_, ?_, ?_, ?_, ?_, ?_, ?_, ?_, ?_⟩ <;>
    simp [AppStateWatcher.call, AppStateWatcher.new_, h, AppStateWatcher.init,
      AppStateWatcher._start_watching, AppStateWatcher._update_flow_state,
      AppStateWatcher._get_flow_state, Watcher.fresh]

/-- Witness for C10 at a concrete input: from the initial process state with the
environment variable absent, the first call raises the configuration error; after the
variable appears, the retry registers a second time and completes the refresh. -/
theorem failed_first_init_retries_witness :
    (AppStateWatcher.call none gfsDemo Sys.initial).err =
      some (.keyError "LIGHTNING_FLOW_NAME") ∧
    (AppStateWatcher.call none gfsDemo Sys.initial).sys.inst.initilized = false ∧
    (AppStateWatcher.call (some "flow") gfsDemo
        (AppStateWatcher.call none gfsDemo Sys.initial).sys).sys.registrations = 2 := by
  have h := failed_first_init_retries "flow" gfsDemo Sys.initial (by decide)
  exact ⟨h.1, h.2.1, by simpa using h.2.2.2.2.2.1⟩

/-- C8 counterexample: with the unguarded check-then-create of `__new__`, a schedule in
which both threads pass the `hasattr` check before either stores constructs two
instances, and the two callers even receive different objects — refuting "at most one
instance is ever created per process, even when the first access occurs concurrently".
-/
theorem concurrent_first_access_double_construction :
    (raceRun RaceSys.start racySched).g.created = 2 ∧
    (raceRun RaceSys.start racySched).t1.ret = some 0 ∧
    (raceRun RaceSys.start racySched).t2.ret = some 1 := by
  decide

/-- C8 (amended): under sequential first access — either thread running `__new__` to
completion before the other starts — exactly one instance is constructed and both
callers receive it; only interleaved concurrent first access can double-construct. -/
theorem sequential_first_access_single_construction :
    ((raceRun RaceSys.start seqSched12).g.created = 1 ∧
     (raceRun RaceSys.start seqSched12).t1.ret = some 0 ∧
     (raceRun RaceSys.start seqSched12).t2.ret = some 0) ∧
    ((raceRun RaceSys.start seqSched21).g.created = 1 ∧
     (raceRun RaceSys.start seqSched21).t1.ret = some 0 ∧
     (raceRun RaceSys.start seqSched21).t2.ret = some 0) := by
  decide
